import Mathlib

/-!
Verification development for the marker linter framework: a shallow embedding
of the plugin loader and registry (`linter_adapter/src/loader.rs`), the
dispatch engine (`linter_adapter/src/lib.rs`), the AST conversion layer
(`marker_rustc_driver/src/conversion/marker/ast/item.rs`), the expression
kind enums (`marker_api/src/ast/expr.rs`) and the memoized token stream
(`linter_api/src/ast/common/attrs.rs`), together with theorems settling the
specification claims about them.
-/

/-! ## Plugin loader and registry (`linter_adapter/src/loader.rs`) -/

/-- A registered lint pass.  Plugin passes are arbitrary foreign code; the
model keeps an identifier and the set of item ids on which the pass's
`check_item` callback panics (the fault behaviour relevant to dispatch). -/
structure LintPass where
  pid : Nat
  panicsOn : List Nat
deriving DecidableEq, Repr

/-- The `LintPassDeclaration` ABI descriptor (`linter_api/src/interface.rs`):
two version strings (modelled as numbers, they are only compared for
equality) and the `register` entry point.  The entry point generated by
`export_lint_pass!` calls `registry.register` once per exported pass, which
pushes the pass onto `lint_passes`; the model records the passes the entry
point would register. -/
structure LintPassDeclaration where
  linter_api_version : Nat
  rustc_version : Nat
  registerPasses : List LintPass
deriving DecidableEq, Repr

/-- A shared library on disk, as seen by `Library::new` and the symbol
lookup: whether the library can be opened, and the ABI descriptor symbol,
when present. -/
structure PluginLib where
  opensOk : Bool
  decl : Option LintPassDeclaration
deriving DecidableEq, Repr

/-- `LoadingError` from `loader.rs`. -/
inductive LoadingError where
  | fileNotFound
  | incompatibleVersion
  | missingLintDeclaration
deriving DecidableEq, Repr

/-- `ExternalLintCrateRegistry`: the pass list, the retired passes, and the
retained library handles. -/
structure Registry where
  lint_passes : List LintPass
  invalid_lint_passes : List LintPass
  libs : List PluginLib
deriving DecidableEq, Repr

/-- The `#[derive(Default)]` registry: all lists empty. -/
def Registry.empty : Registry := ⟨[], [], []⟩

/-- `load_external_lib` (loader.rs lines 21-42).  The host's
`LINTER_API_VERSION` and `RUSTC_VERSION` constants are opaque values in
`linter_api` and are passed as parameters `hostApi` and `hostRustc`.
Returns the `Result`, the registry after the call (unchanged on every error
path, mirroring that no mutation of `self` happens before the version gate),
and whether the plugin's `register` entry point was invoked. -/
def load_external_lib (hostApi hostRustc : Nat) (reg : Registry) (lib : PluginLib) :
    Except LoadingError Unit × Registry × Bool :=
  if !lib.opensOk then
    (.error .fileNotFound, reg, false)
  else
    match lib.decl with
    | none => (.error .missingLintDeclaration, reg, false)
    | some decl =>
      if decl.linter_api_version ≠ hostApi ∨ decl.rustc_version ≠ hostRustc then
        (.error .incompatibleVersion, reg, false)
      else
        (.ok (),
         { reg with
            lint_passes := reg.lint_passes ++ decl.registerPasses,
            libs := reg.libs ++ [lib] },
         true)

/-- The error `load_external_lib` reports for a library, independent of the
registry it is called on (`none` when loading succeeds). -/
def libLoadError (hostApi hostRustc : Nat) (lib : PluginLib) : Option LoadingError :=
  if !lib.opensOk then some .fileNotFound
  else
    match lib.decl with
    | none => some .missingLintDeclaration
    | some decl =>
      if decl.linter_api_version ≠ hostApi ∨ decl.rustc_version ≠ hostRustc then
        some .incompatibleVersion
      else
        none

/-- Strings (environment values, paths) are modelled as character lists so
that every operation on them computes by structural recursion. -/
abbrev PathStr := List Char

/-- Rust's `str::split(';')` on the environment value: splits the character
list at every `';'`; the empty string splits to one empty path, matching the
iterator's behaviour. -/
def splitSemi : List Char → List PathStr
  | [] => [[]]
  | c :: rest =>
    match splitSemi rest with
    | [] => [[]]
    | s :: ss => if c = ';' then [] :: s :: ss else (c :: s) :: ss

/-- The loop body of `new_from_env` over the `';'`-split path list: load each
path in order; on the first `Err` the function panics with a message naming
the offending path and the error.  The filesystem is modelled as a map from
paths to libraries.  The second component counts how many load attempts were
made. -/
def new_from_env_loop (hostApi hostRustc : Nat) (fs : PathStr → PluginLib) :
    List PathStr → Registry → Except (PathStr × LoadingError) Registry × Nat
  | [], reg => (.ok reg, 0)
  | p :: rest, reg =>
    match load_external_lib hostApi hostRustc reg (fs p) with
    | (.error e, _, _) => (.error (p, e), 1)
    | (.ok _, reg2, _) =>
      let r := new_from_env_loop hostApi hostRustc fs rest reg2
      (r.1, r.2 + 1)

/-- `new_from_env` (loader.rs lines 47-59).  The `LINTER_LINT_CRATES`
environment variable is `env` (`none` when unset); when set, its value is
split on `';'` and every path is loaded into a fresh default registry.  A
load failure panics, modelled as `Except.error` carrying the offending path
and the `LoadingError`.  The count of attempted loads is returned alongside. -/
def new_from_env (hostApi hostRustc : Nat) (fs : PathStr → PluginLib) (env : Option PathStr) :
    Except (PathStr × LoadingError) Registry × Nat :=
  match env with
  | none => (.ok Registry.empty, 0)
  | some lst => new_from_env_loop hostApi hostRustc fs (splitSemi lst) Registry.empty

/-! ## Claims C2, C4, C10 -/

/-- Claim C2: for every plugin library whose ABI descriptor is present but
whose `api_version` or `host_compiler_version` field differs from the host's
constants, `load` returns the `IncompatibleVersion` error, the registry is
left unchanged (no pass registered, no library retained), and the plugin's
`register` entry point is never invoked. -/
theorem c2_version_gate (hostApi hostRustc : Nat) (reg : Registry) (lib : PluginLib)
    (decl : LintPassDeclaration) (hOpen : lib.opensOk = true) (hDecl : lib.decl = some decl)
    (hVer : decl.linter_api_version ≠ hostApi ∨ decl.rustc_version ≠ hostRustc) :
    load_external_lib hostApi hostRustc reg lib = (.error .incompatibleVersion, reg, false) := by
  simp [load_external_lib, hOpen, hDecl, hVer]

/-- Witness for C2: a concrete library whose descriptor mismatches the host
api version is rejected without invoking its entry point. -/
theorem c2_version_gate_witness :
    load_external_lib 1 2 Registry.empty ⟨true, some ⟨7, 2, [⟨0, []⟩]⟩⟩ =
      (.error .incompatibleVersion, Registry.empty, false) :=
  c2_version_gate 1 2 Registry.empty ⟨true, some ⟨7, 2, [⟨0, []⟩]⟩⟩ ⟨7, 2, [⟨0, []⟩]⟩
    rfl rfl (Or.inl (by decide))

/-- On every error path, `load_external_lib` reports exactly `libLoadError`
of the library, leaves the registry unchanged and does not invoke the entry
point; on success `libLoadError` is `none`. -/
theorem load_external_lib_error_spec (hostApi hostRustc : Nat) (reg : Registry)
    (lib : PluginLib) (e : LoadingError) :
    libLoadError hostApi hostRustc lib = some e ↔
      load_external_lib hostApi hostRustc reg lib = (.error e, reg, false) := by
  unfold libLoadError load_external_lib
  cases hOpen : lib.opensOk with
  | false => simp
  | true =>
    cases hDecl : lib.decl with
    | none => simp
    | some decl =>
      by_cases hVer : decl.linter_api_version ≠ hostApi ∨ decl.rustc_version ≠ hostRustc
      · simp [hVer]
      · simp [hVer]

/-- When `libLoadError` is `none`, loading succeeds. -/
theorem load_external_lib_ok (hostApi hostRustc : Nat) (reg : Registry) (lib : PluginLib)
    (h : libLoadError hostApi hostRustc lib = none) :
    ∃ reg2, load_external_lib hostApi hostRustc reg lib = (.ok (), reg2, true) := by
  unfold libLoadError at h
  unfold load_external_lib
  cases hOpen : lib.opensOk with
  | false => simp [hOpen] at h
  | true =>
    cases hDecl : lib.decl with
    | none => simp [hOpen, hDecl] at h
    | some decl =>
      by_cases hVer : decl.linter_api_version ≠ hostApi ∨ decl.rustc_version ≠ hostRustc
      · simp [hOpen, hDecl, hVer] at h
      · refine ⟨{ reg with
            lint_passes := reg.lint_passes ++ decl.registerPasses,
            libs := reg.libs ++ [lib] }, ?_⟩
        simp [hOpen, hDecl, hVer]

/-- If every path in the list loads successfully, the loop returns `Ok` and
attempts every load. -/
theorem new_from_env_loop_all_ok (hostApi hostRustc : Nat) (fs : PathStr → PluginLib)
    (paths : List PathStr) (reg : Registry)
    (h : ∀ p ∈ paths, libLoadError hostApi hostRustc (fs p) = none) :
    (∃ reg2, (new_from_env_loop hostApi hostRustc fs paths reg).1 = .ok reg2) ∧
      (new_from_env_loop hostApi hostRustc fs paths reg).2 = paths.length := by
  induction paths generalizing reg with
  | nil => exact ⟨⟨reg, rfl⟩, rfl⟩
  | cons p rest ih =>
    have hp : libLoadError hostApi hostRustc (fs p) = none := h p (List.mem_cons_self p rest)
    obtain ⟨reg2, hload⟩ := load_external_lib_ok hostApi hostRustc reg (fs p) hp
    have hrest := ih reg2 (fun q hq => h q (List.mem_cons_of_mem p hq))
    unfold new_from_env_loop
    rw [hload]
    exact ⟨hrest.1, by simpa using hrest.2⟩

/-- If some path in the list fails to load, the loop aborts with an error
naming a path from the list together with that path's own loading error. -/
theorem new_from_env_loop_fail (hostApi hostRustc : Nat) (fs : PathStr → PluginLib)
    (paths : List PathStr) (reg : Registry)
    (h : ∃ p ∈ paths, libLoadError hostApi hostRustc (fs p) ≠ none) :
    ∃ q e, (new_from_env_loop hostApi hostRustc fs paths reg).1 = .error (q, e) ∧
      q ∈ paths ∧ libLoadError hostApi hostRustc (fs q) = some e := by
  induction paths generalizing reg with
  | nil => simp at h
  | cons p rest ih =>
    unfold new_from_env_loop
    cases hErr : libLoadError hostApi hostRustc (fs p) with
    | some e =>
      have hload := (load_external_lib_error_spec hostApi hostRustc reg (fs p) e).mp hErr
      rw [hload]
      exact ⟨p, e, rfl, List.mem_cons_self p rest, hErr⟩
    | none =>
      obtain ⟨reg2, hload⟩ := load_external_lib_ok hostApi hostRustc reg (fs p) hErr
      rw [hload]
      have hrest : ∃ q ∈ rest, libLoadError hostApi hostRustc (fs q) ≠ none := by
        obtain ⟨q, hq, hqe⟩ := h
        rcases List.mem_cons.mp hq with hqp | hqr
        · exact absurd (hqp ▸ hErr) hqe
        · exact ⟨q, hqr, hqe⟩
      obtain ⟨q, e, heq, hqmem, hqe⟩ := ih reg2 hrest
      exact ⟨q, e, by simpa using heq, List.mem_cons_of_mem p hqmem, hqe⟩

/-- Claim C4: `new_from_env` loads every path in the externally supplied
`';'`-delimited list, and if loading any single path fails with any
`LoadingError`, the whole initialization aborts with a diagnostic naming an
offending path and its error, rather than returning a registry with a
partial set of passes. -/
theorem c4_abort_on_any_failure (hostApi hostRustc : Nat) (fs : PathStr → PluginLib)
    (lst : PathStr)
    (hFail : ∃ p ∈ splitSemi lst, libLoadError hostApi hostRustc (fs p) ≠ none) :
    (∀ reg2, (new_from_env hostApi hostRustc fs (some lst)).1 ≠ .ok reg2) ∧
      ∃ q e, (new_from_env hostApi hostRustc fs (some lst)).1 = .error (q, e) ∧
        q ∈ splitSemi lst ∧ libLoadError hostApi hostRustc (fs q) = some e := by
  obtain ⟨q, e, heq, hqmem, hqe⟩ :=
    new_from_env_loop_fail hostApi hostRustc fs (splitSemi lst) Registry.empty hFail
  refine ⟨?_, q, e, heq, hqmem, hqe⟩
  intro reg2
  simp only [new_from_env]
  rw [heq]
  simp

/-- A concrete filesystem for the C4 witness: only the path `a` opens, with a
matching descriptor; every other path fails to open. -/
def c4Fs : PathStr → PluginLib :=
  fun p => ⟨p == ['a'], some ⟨1, 1, []⟩⟩

/-- Witness for C4: with a filesystem where path `b` fails to open, loading
the list `a;b` aborts with an error naming an offending path. -/
theorem c4_abort_on_any_failure_witness :
    (∃ p ∈ splitSemi ['a', ';', 'b'], libLoadError 1 1 (c4Fs p) ≠ none) ∧
      ∃ q e, (new_from_env 1 1 c4Fs (some ['a', ';', 'b'])).1 = .error (q, e) := by
  have hFail : ∃ p ∈ splitSemi ['a', ';', 'b'], libLoadError 1 1 (c4Fs p) ≠ none := by
    refine ⟨['b'], by decide, by decide⟩
  have h := c4_abort_on_any_failure 1 1 c4Fs ['a', ';', 'b'] hFail
  obtain ⟨-, q, e, heq, -, -⟩ := h
  exact ⟨hFail, q, e, heq⟩

/-- Claim C10: if the environment variable holding the plugin path list is
unset, `new_from_env` returns successfully with a registry containing zero
passes and zero retained libraries, attempts no load and raises no error. -/
theorem c10_unset_env_empty_registry (hostApi hostRustc : Nat) (fs : PathStr → PluginLib) :
    new_from_env hostApi hostRustc fs none = (.ok ⟨[], [], []⟩, 0) := rfl

/-! ## Dispatch engine (`linter_adapter/src/lib.rs` and the `LintPass`
implementation for the registry in `loader.rs`) -/

/-- One observable callback invocation delivered to a single pass. -/
inductive DispatchEvent where
  | checkAttr (pid : Nat) (itemId : Nat) (attr : Nat)
  | checkItem (pid : Nat) (itemId : Nat)
  | checkMod (pid : Nat) (itemId : Nat)
  | checkExternCrate (pid : Nat) (itemId : Nat)
  | checkUseDecl (pid : Nat) (itemId : Nat)
  | checkStaticItem (pid : Nat) (itemId : Nat)
deriving DecidableEq, Repr

/-- The tagged kind of an `ItemType` value as matched by `process_krate`:
the four kinds with a dedicated callback, and `other` for every remaining
variant (the `_ => {}` arm). -/
inductive ItemTypeKind where
  | modItem
  | externCrate
  | useDecl
  | staticItem
  | other
deriving DecidableEq, Repr

/-- A converted top-level item as seen by the adapter: its id, the ids of
its attached attributes in order, and its tagged kind. -/
structure ApiItem where
  itemId : Nat
  attrs : List Nat
  kind : ItemTypeKind
deriving DecidableEq, Repr

/-- The registry's `check_item` (loader.rs lines 94-98): forwards the node to
every pass in order with no fault boundary, so the first pass that panics
unwinds out of the whole method.  Returns the calls made (the panicking call
included, the pass did receive the node) and whether a panic escaped. -/
def check_item : List LintPass → Nat → List DispatchEvent × Bool
  | [], _ => ([], false)
  | p :: rest, n =>
    if n ∈ p.panicsOn then ([.checkItem p.pid n], true)
    else
      let r := check_item rest n
      (.checkItem p.pid n :: r.1, r.2)

/-- The registry's `check_mod` (loader.rs lines 100-104): forwards to every
pass in order.  Pass faults are modelled for `check_item` only, so this
forwarding loop always completes. -/
def check_mod (passes : List LintPass) (n : Nat) : List DispatchEvent :=
  passes.map fun p => .checkMod p.pid n

/-- The registry's `check_extern_crate` (loader.rs lines 105-109). -/
def check_extern_crate (passes : List LintPass) (n : Nat) : List DispatchEvent :=
  passes.map fun p => .checkExternCrate p.pid n

/-- The registry's `check_use_decl` (loader.rs lines 110-114). -/
def check_use_decl (passes : List LintPass) (n : Nat) : List DispatchEvent :=
  passes.map fun p => .checkUseDecl p.pid n

/-- Modelled from the spec: the registry's `check_attr` forwarding.  The
`LintPass` trait with its default methods is not part of the source
snapshot; the spec states that the engine "invokes every pass's attribute
callback for each attached attribute", so the registry-level call is
modelled as forwarding to every pass in order. -/
def check_attr (passes : List LintPass) (n : Nat) (attr : Nat) : List DispatchEvent :=
  passes.map fun p => .checkAttr p.pid n attr

/-- Modelled from the spec: the registry's `check_static_item` forwarding,
analogous to the other kind-specific callbacks; the trait default it would
override is not part of the source snapshot. -/
def check_static_item (passes : List LintPass) (n : Nat) : List DispatchEvent :=
  passes.map fun p => .checkStaticItem p.pid n

/-- `Adapter::process_krate` (lib.rs lines 26-42): iterate the crate's items
in order; per item first `check_attr` for each attribute, then `check_item`,
then the kind-specific callback selected by the `match`.  The registry's
`check_item` has no fault boundary, so a pass panic unwinds out of
`process_krate`, aborting the traversal (second component `true`). -/
def process_krate (passes : List LintPass) : List ApiItem → List DispatchEvent × Bool
  | [] => ([], false)
  | it :: rest =>
    let attrEvents := it.attrs.flatMap fun a => check_attr passes it.itemId a
    let r := check_item passes it.itemId
    if r.2 then
      (attrEvents ++ r.1, true)
    else
      let kindEvents :=
        match it.kind with
        | .modItem => check_mod passes it.itemId
        | .externCrate => check_extern_crate passes it.itemId
        | .useDecl => check_use_decl passes it.itemId
        | .staticItem => check_static_item passes it.itemId
        | .other => []
      let rr := process_krate passes rest
      (attrEvents ++ r.1 ++ kindEvents ++ rr.1, rr.2)

/-- The indices collected into `invalid` by the loop in `for_each_lint_pass`
(loader.rs lines 62-72): positions, in ascending order, of the passes whose
call panicked on `n` (every call is wrapped in `catch_unwind`, so all passes
are invoked). -/
def panickedIndices (n : Nat) : List LintPass → Nat → List Nat
  | [], _ => []
  | p :: rest, i => (if n ∈ p.panicsOn then [i] else []) ++ panickedIndices n rest (i + 1)

/-- `Vec::remove(index)`: removes and returns the element at `index`,
shifting the tail left; `none` models the panic raised when `index` is out
of bounds. -/
def vecRemove (l : List LintPass) (i : Nat) : Option (LintPass × List LintPass) :=
  if h : i < l.length then some (l.get ⟨i, h⟩, l.eraseIdx i) else none

/-- The retirement loop of `for_each_lint_pass` (loader.rs lines 73-75):
`for index in invalid { self.invalid_lint_passes.push(self.lint_passes.remove(index)) }`.
The indices were collected against the original vector but each `remove`
shifts the remaining elements, so later indices may hit the wrong pass or
fall out of bounds (`none` models the host panicking). -/
def retireLoop : List Nat → Registry → Option Registry
  | [], reg => some reg
  | i :: rest, reg =>
    match vecRemove reg.lint_passes i with
    | none => none
    | some (p, l) =>
      retireLoop rest
        { reg with lint_passes := l, invalid_lint_passes := reg.invalid_lint_passes ++ [p] }

/-- `for_each_lint_pass` (loader.rs lines 61-76): calls every pass on `n`
inside a fault boundary, then moves the passes that panicked into
`invalid_lint_passes` via the retirement loop. -/
def for_each_lint_pass (reg : Registry) (n : Nat) : List DispatchEvent × Option Registry :=
  (reg.lint_passes.map fun p => .checkItem p.pid n,
   retireLoop (panickedIndices n reg.lint_passes 0) reg)

/-- A session driven by repeated `for_each_lint_pass` invocations, one per
item, as the spec describes the dispatch engine (`for_each_pass`). -/
def engine_session (reg : Registry) : List Nat → List DispatchEvent × Option Registry
  | [] => ([], some reg)
  | n :: rest =>
    let r := for_each_lint_pass reg n
    match r.2 with
    | none => (r.1, none)
    | some reg2 =>
      let rr := engine_session reg2 rest
      (r.1 ++ rr.1, rr.2)

/-- When two passes both fault on the same node, the retirement loop of
`for_each_lint_pass` removes index 0 and then index 1 of a one-element
vector: the host itself panics instead of retiring the two passes. -/
theorem for_each_lint_pass_double_fault_panics :
    for_each_lint_pass ⟨[⟨0, [10]⟩, ⟨1, [10]⟩], [], []⟩ 10 =
      ([.checkItem 0 10, .checkItem 1 10], none) := by decide

/-! ## Claims C1 and C8 -/

/-- The pass `A` of the C1 scenario: panics while processing item `10`. -/
def passA : LintPass := ⟨0, [10]⟩

/-- The pass `B` of the C1 scenario: never panics. -/
def passB : LintPass := ⟨1, []⟩

/-- Item `X` of the C1 scenario (id `10`, no attributes, no kind-specific
callback). -/
def itemX : ApiItem := ⟨10, [], .other⟩

/-- Item `Y` of the C1 scenario (id `11`). -/
def itemY : ApiItem := ⟨11, [], .other⟩

/-- Claim C1, evaluated at the claim's own scenario (passes `[A, B]`, items
`[X, Y]`, `A` faults on `X`): the dispatch path actually wired into the
adapter (`process_krate` calling the registry's `check_item`, which has no
fault boundary) aborts at `check_item(A, X)` — `B` never receives `X` or `Y`
and `A` is never retired.  The private `for_each_lint_pass` helper, which
`process_krate` never calls, would produce exactly the claimed trace and
retire `A`. -/
theorem c1_fault_escapes_wired_dispatch :
    process_krate [passA, passB] [itemX, itemY] = ([.checkItem 0 10], true) ∧
      engine_session ⟨[passA, passB], [], []⟩ [10, 11] =
        ([.checkItem 0 10, .checkItem 1 10, .checkItem 1 11],
          some ⟨[passB], [passA], []⟩) := by
  constructor <;> decide

/-- The dispatch trace as the spec describes `process`: for each item in
source order, every pass's attribute callback for each attached attribute,
then the generic item callback for every pass, then exactly one
kind-specific callback per pass chosen by the item's tagged kind
(module, extern-crate, use-declaration, static; anything else: none). -/
def process_krate_spec (passes : List LintPass) (items : List ApiItem) : List DispatchEvent :=
  items.flatMap fun it =>
    (it.attrs.flatMap fun a => passes.map fun p => DispatchEvent.checkAttr p.pid it.itemId a)
      ++ (passes.map fun p => DispatchEvent.checkItem p.pid it.itemId)
      ++ (match it.kind with
          | .modItem => passes.map fun p => DispatchEvent.checkMod p.pid it.itemId
          | .externCrate => passes.map fun p => DispatchEvent.checkExternCrate p.pid it.itemId
          | .useDecl => passes.map fun p => DispatchEvent.checkUseDecl p.pid it.itemId
          | .staticItem => passes.map fun p => DispatchEvent.checkStaticItem p.pid it.itemId
          | .other => [])

/-- When no pass panics on `n`, the registry's `check_item` calls every pass
in order and completes. -/
theorem check_item_no_panic (passes : List LintPass) (n : Nat)
    (h : ∀ p ∈ passes, n ∉ p.panicsOn) :
    check_item passes n = (passes.map fun p => .checkItem p.pid n, false) := by
  induction passes with
  | nil => rfl
  | cons p rest ih =>
    have hp : n ∉ p.panicsOn := h p (List.mem_cons_self p rest)
    rw [check_item, if_neg hp, ih (fun q hq => h q (List.mem_cons_of_mem p hq))]
    rfl

/-- Claim C8: `process_krate` iterates the top-level items in source
declaration order and, for each item, invokes every pass's attribute
callback once per attached attribute, then the generic item callback, then
exactly one kind-specific callback selected by the item's tagged kind
(module, extern-crate, use-declaration, static) and none for any other
kind — i.e. the produced trace refines the spec's description.  Stated for
runs in which no pass faults. -/
theorem c8_process_krate_refines_spec (passes : List LintPass) (items : List ApiItem)
    (h : ∀ p ∈ passes, ∀ it ∈ items, it.itemId ∉ p.panicsOn) :
    process_krate passes items = (process_krate_spec passes items, false) := by
  induction items with
  | nil => rfl
  | cons it rest ih =>
    have hit : check_item passes it.itemId =
        (passes.map fun p => .checkItem p.pid it.itemId, false) :=
      check_item_no_panic passes it.itemId
        (fun p hp => h p hp it (List.mem_cons_self it rest))
    have hrest := ih fun p hp q hq => h p hp q (List.mem_cons_of_mem it hq)
    rw [process_krate, hit]
    cases hk : it.kind <;>
      simp [hk, hrest, process_krate_spec, check_attr, check_mod, check_extern_crate,
        check_use_decl, check_static_item, List.append_assoc]

/-- Witness for C8: two non-faulting passes over a module item with one
attribute and a static item produce exactly the spec's trace. -/
theorem c8_process_krate_refines_spec_witness :
    process_krate [⟨0, []⟩, ⟨1, []⟩] [⟨5, [7], .modItem⟩, ⟨6, [], .staticItem⟩] =
      (process_krate_spec [⟨0, []⟩, ⟨1, []⟩] [⟨5, [7], .modItem⟩, ⟨6, [], .staticItem⟩],
        false) :=
  c8_process_krate_refines_spec [⟨0, []⟩, ⟨1, []⟩] [⟨5, [7], .modItem⟩, ⟨6, [], .staticItem⟩]
    (by decide)

/-! ## Conversion layer (`marker_rustc_driver/src/conversion/marker/ast/item.rs`) -/

/-- The expansion kind of a span's outer expansion context
(`rustc_span::ExpnKind`): the root context, a regular macro expansion, a
compiler AST pass, or a desugaring. -/
inductive ExpnKind where
  | root
  | macroExpn
  | astPass
  | desugaring
deriving DecidableEq, Repr

/-- What `is_compiler_generated` inspects of a compiler-internal span: whether
its syntax context is the root context, and the kind of its outer expansion. -/
structure RustcSpan where
  ctxtIsRoot : Bool
  outerExpnKind : ExpnKind
deriving DecidableEq, Repr

/-- `is_compiler_generated` (item.rs lines 177-181):
`!ctxt.is_root() && matches!(ctxt.outer_expn_data().kind, ExpnKind::AstPass(_))`. -/
def is_compiler_generated (span : RustcSpan) : Bool :=
  !span.ctxtIsRoot &&
    (match span.outerExpnKind with
     | .astPass => true
     | _ => false)

/-- `hir::UseKind`. -/
inductive RustcUseKind where
  | single
  | glob
  | listStem
deriving DecidableEq, Repr

/-- The `hir::ItemKind` variant of a compiler-internal item, with the
per-variant payloads (types, generics, child items, bodies) abstracted away:
only the choice of variant decides which conversion arm of `to_item` runs. -/
inductive RustcItemKind where
  | externCrate
  | useItem (k : RustcUseKind)
  | staticItem
  | constItem
  | fnItem
  | modItem
  | foreignMod
  | macroDef
  | globalAsm
  | tyAlias
  | opaqueTy
  | enumDef
  | structDef
  | unionDef
  | traitDef
  | traitAlias
  | implItem
deriving DecidableEq, Repr

/-- A compiler-internal item: its owner id (mapped by `to_item_id`, modelled
as the identity on numbers), its span and its kind. -/
structure RustcItem where
  ownerId : Nat
  span : RustcSpan
  kind : RustcItemKind
deriving DecidableEq, Repr

/-- The symbol `rustc_span::sym::type_alias_impl_trait`, the reason tag of
the `Unstable` node built for `OpaqueTy` items (symbols are interned and
modelled as numbers). -/
def sym_type_alias_impl_trait : Nat := 0

/-- The symbol `rustc_span::sym::trait_alias`, the reason tag of the
`Unstable` node built for `TraitAlias` items. -/
def sym_trait_alias : Nat := 1

/-- The kind of a converted stable item node (`marker ItemKind` variant);
`unstable` carries the reason symbol of the `UnstableItem`. -/
inductive ItemNodeKind where
  | externCrate
  | useDecl
  | staticItem
  | constItem
  | fnItem
  | modItem
  | externBlock
  | tyAlias
  | unstable (reason : Nat)
  | enumItem
  | structItem
  | unionItem
  | traitItem
  | implItem
deriving DecidableEq, Repr

/-- A stable item node: its arena address (`addr` is the node's identity —
two nodes are the same allocation exactly when their addresses agree), its
item id, and its kind.  The per-kind payloads built by the conversion arms
are abstracted. -/
structure ItemNode where
  addr : Nat
  id : Nat
  kind : ItemNodeKind
deriving DecidableEq, Repr

/-- A stable body node: its arena address (identity), the owning item, and
whether its value expression is the `Unstable` placeholder (the coroutine
case); the conversion of the value expression itself is abstracted. -/
structure BodyNode where
  addr : Nat
  owner : Nat
  valueIsUnstable : Bool
deriving DecidableEq, Repr

/-- A compiler-internal body: its body id, the owning item's id
(`body_owner_def_id`), and whether `coroutine_kind` is
`Some(CoroutineKind::Coroutine)` (a yield-containing body). -/
structure RustcBody where
  bodyId : Nat
  ownerId : Nat
  isCoroutine : Bool
deriving DecidableEq, Repr

/-- The per-session conversion state of `MarkerConverterInner`: the
ID-keyed `items` and `bodies` caches (`RefCell<FxHashMap>`, modelled as
association lists) and the arena, reduced to the address the next `alloc`
call hands out. -/
structure ConvContext where
  items : List (Nat × ItemNode)
  bodies : List (Nat × BodyNode)
  allocNext : Nat
deriving DecidableEq, Repr

/-- Lookup in an ID-keyed cache. -/
def assocFind {α : Type} (k : Nat) : List (Nat × α) → Option α
  | [] => none
  | (k2, v) :: rest => if k = k2 then some v else assocFind k rest

/-- Which stable node kind each `to_item` match arm builds (item.rs lines
57-171): `none` for the arms that `return None` — `Use` of a `ListStem`
(line 65) and `Macro` / `GlobalAsm` (line 107); `OpaqueTy` (lines 116-119)
and `TraitAlias` (lines 156-159) build `Unstable` nodes tagged with a reason
symbol; every other arm builds the node of the corresponding kind. -/
def itemConvKind : RustcItemKind → Option ItemNodeKind
  | .externCrate => some .externCrate
  | .useItem .listStem => none
  | .useItem _ => some .useDecl
  | .staticItem => some .staticItem
  | .constItem => some .constItem
  | .fnItem => some .fnItem
  | .modItem => some .modItem
  | .foreignMod => some .externBlock
  | .macroDef => none
  | .globalAsm => none
  | .tyAlias => some .tyAlias
  | .opaqueTy => some (.unstable sym_type_alias_impl_trait)
  | .enumDef => some .enumItem
  | .structDef => some .structItem
  | .unionDef => some .unionItem
  | .traitDef => some .traitItem
  | .traitAlias => some (.unstable sym_trait_alias)
  | .implItem => some .implItem

/-- `to_item` (item.rs lines 33-175): first consult the `items` cache; on a
miss drop compiler-generated nodes, then convert by kind — `None`-arms drop
the item, every other arm allocates one stable node — and insert the new
node into the cache keyed by its id before returning it. -/
def to_item (cx : ConvContext) (it : RustcItem) : Option ItemNode × ConvContext :=
  match assocFind it.ownerId cx.items with
  | some item => (some item, cx)
  | none =>
    if is_compiler_generated it.span then (none, cx)
    else
      match itemConvKind it.kind with
      | none => (none, cx)
      | some k =>
        let item : ItemNode := ⟨cx.allocNext, it.ownerId, k⟩
        (some item, { cx with items := (it.ownerId, item) :: cx.items,
                              allocNext := cx.allocNext + 1 })

/-- `to_body` (item.rs lines 476-500): first consult the `bodies` cache; on
a miss, a coroutine body (yield expressions are unstable) is rebuilt with an
`Unstable` value expression and returned WITHOUT being inserted into the
cache (lines 484-492), while every other body is built and inserted. -/
def to_body (cx : ConvContext) (b : RustcBody) : BodyNode × ConvContext :=
  match assocFind b.bodyId cx.bodies with
  | some body => (body, cx)
  | none =>
    if b.isCoroutine then
      let body : BodyNode := ⟨cx.allocNext, b.ownerId, true⟩
      (body, { cx with allocNext := cx.allocNext + 1 })
    else
      let body : BodyNode := ⟨cx.allocNext, b.ownerId, false⟩
      (body, { cx with bodies := (b.bodyId, body) :: cx.bodies,
                       allocNext := cx.allocNext + 1 })

/-- `hir::ForeignItemKind`. -/
inductive RustcForeignItemKind where
  | fnItem
  | staticItem
  | typeItem
deriving DecidableEq, Repr

/-- A compiler-internal foreign item reference. -/
structure RustcForeignItem where
  ownerId : Nat
  kind : RustcForeignItemKind
deriving DecidableEq, Repr

/-- `to_external_item` (item.rs lines 298-356), returning the `as_item`
projection of the built `ExternItemKind`.  `none` models a conversion panic:
the `unreachable!` when a cached node is neither a static nor a function,
and the `todo!` for foreign `type` items (lines 349-351), which aborts
conversion instead of producing a placeholder node. -/
def to_external_item (cx : ConvContext) (fi : RustcForeignItem) :
    Option (ItemNode × ConvContext) :=
  match assocFind fi.ownerId cx.items with
  | some item =>
    match item.kind with
    | .staticItem => some (item, cx)
    | .fnItem => some (item, cx)
    | _ => none
  | none =>
    match fi.kind with
    | .fnItem =>
      let item : ItemNode := ⟨cx.allocNext, fi.ownerId, .fnItem⟩
      some (item, { cx with items := (fi.ownerId, item) :: cx.items,
                            allocNext := cx.allocNext + 1 })
    | .staticItem =>
      let item : ItemNode := ⟨cx.allocNext, fi.ownerId, .staticItem⟩
      some (item, { cx with items := (fi.ownerId, item) :: cx.items,
                            allocNext := cx.allocNext + 1 })
    | .typeItem => none

/-! ## Claims C3, C5, C9 -/

/-- A concrete coroutine body (contains yield expressions). -/
def c3Body : RustcBody := ⟨3, 1, true⟩

/-- Counterexample to claim C3: converting the same coroutine body twice in
one session allocates twice and returns two distinct node identities,
because the coroutine arm of `to_body` returns without inserting the built
node into the `bodies` cache. -/
theorem c3_coroutine_body_reallocated :
    (to_body (to_body ⟨[], [], 0⟩ c3Body).2 c3Body).1 ≠ (to_body ⟨[], [], 0⟩ c3Body).1 ∧
      (to_body (to_body ⟨[], [], 0⟩ c3Body).2 c3Body).2.allocNext = 2 := by
  constructor <;> decide

/-- Claim C3 as amended: converting a source item a second time within the
same session returns the already-built node with identical node identity and
performs no further allocation (the session state is unchanged), and the
same holds for every non-coroutine body; coroutine bodies are excluded, as
`c3_coroutine_body_reallocated` shows they are re-allocated on every
conversion. -/
theorem c3_conversion_cached (cx : ConvContext) (it : RustcItem) (b : RustcBody)
    (n : ItemNode) (h1 : (to_item cx it).1 = some n) :
    to_item (to_item cx it).2 it = (some n, (to_item cx it).2) ∧
      (b.isCoroutine = false →
        to_body (to_body cx b).2 b = ((to_body cx b).1, (to_body cx b).2)) := by
  constructor
  · unfold to_item at h1 ⊢
    cases hfind : assocFind it.ownerId cx.items with
    | some item =>
      simp only [hfind] at h1 ⊢
      simpa using h1
    | none =>
      cases hcg : is_compiler_generated it.span with
      | true => simp [hfind, hcg] at h1
      | false =>
        cases hk : itemConvKind it.kind with
        | none => simp [hfind, hcg, hk] at h1
        | some k =>
          simp only [hfind, hcg, hk, Bool.false_eq_true, if_false] at h1 ⊢
          simp only [Option.some.injEq] at h1
          simp [assocFind, h1]
  · intro hco
    unfold to_body
    cases hfind : assocFind b.bodyId cx.bodies with
    | some body => simp [hfind]
    | none => simp [hfind, hco, assocFind]

/-- Witness for C3 (amended): a static item converted twice from a fresh
session returns the same node and unchanged state, and a non-coroutine body
converted twice likewise. -/
theorem c3_conversion_cached_witness :
    (to_item ⟨[], [], 0⟩ ⟨4, ⟨true, .root⟩, .staticItem⟩).1 = some ⟨0, 4, .staticItem⟩ ∧
      to_item (to_item ⟨[], [], 0⟩ ⟨4, ⟨true, .root⟩, .staticItem⟩).2
          ⟨4, ⟨true, .root⟩, .staticItem⟩ =
        (some ⟨0, 4, .staticItem⟩, (to_item ⟨[], [], 0⟩ ⟨4, ⟨true, .root⟩, .staticItem⟩).2) ∧
      ((⟨3, 1, false⟩ : RustcBody).isCoroutine = false →
        to_body (to_body ⟨[], [], 0⟩ ⟨3, 1, false⟩).2 ⟨3, 1, false⟩ =
          ((to_body ⟨[], [], 0⟩ ⟨3, 1, false⟩).1, (to_body ⟨[], [], 0⟩ ⟨3, 1, false⟩).2)) := by
  have h := c3_conversion_cached ⟨[], [], 0⟩ ⟨4, ⟨true, .root⟩, .staticItem⟩ ⟨3, 1, false⟩
    ⟨0, 4, .staticItem⟩ (by decide)
  exact ⟨by decide, h.1, h.2⟩

/-- A concrete macro definition item in the root expansion context. -/
def c5Item : RustcItem := ⟨6, ⟨true, .root⟩, .macroDef⟩

/-- Counterexample to claim C5: a macro definition item reachable by
conversion yields no stable node at all (it is dropped, not converted into
an `Unstable` placeholder), and a foreign `type` item makes `to_external_item`
abort (the `todo!`), so not every source construct reachable by conversion
yields some stable node. -/
theorem c5_macro_item_yields_no_node :
    (to_item ⟨[], [], 0⟩ c5Item).1 = none ∧
      to_external_item ⟨[], [], 0⟩ ⟨7, .typeItem⟩ = none := by
  constructor <;> decide

/-- Claim C5 as amended: constructs the stable tree model cannot yet fully
represent do not all become placeholder nodes — opaque type aliases and
trait aliases convert into the designated `Unstable` node tagged with a
reason symbol, and a coroutine body's value becomes the `Unstable`
expression, but macro definitions, global asm items and use-list-stems are
dropped without any node, and a foreign `type` item aborts conversion. -/
theorem c5_unstable_placeholders (cx : ConvContext) (it : RustcItem)
    (hmiss : assocFind it.ownerId cx.items = none)
    (hroot : is_compiler_generated it.span = false) :
    (it.kind = .opaqueTy →
        (to_item cx it).1 = some ⟨cx.allocNext, it.ownerId, .unstable sym_type_alias_impl_trait⟩) ∧
      (it.kind = .traitAlias →
        (to_item cx it).1 = some ⟨cx.allocNext, it.ownerId, .unstable sym_trait_alias⟩) ∧
      ((it.kind = .macroDef ∨ it.kind = .globalAsm ∨ it.kind = .useItem .listStem) →
        (to_item cx it).1 = none) ∧
      (∀ b : RustcBody, assocFind b.bodyId cx.bodies = none → b.isCoroutine = true →
        (to_body cx b).1.valueIsUnstable = true) ∧
      (∀ fi : RustcForeignItem, assocFind fi.ownerId cx.items = none → fi.kind = .typeItem →
        to_external_item cx fi = none) := by
  refine ⟨?_, ?_, ?_, ?_, ?_⟩
  · intro hk
    simp [to_item, hmiss, hroot, hk, itemConvKind]
  · intro hk
    simp [to_item, hmiss, hroot, hk, itemConvKind]
  · rintro (hk | hk | hk) <;> simp [to_item, hmiss, hroot, hk, itemConvKind]
  · intro b hb hco
    simp [to_body, hb, hco]
  · intro fi hfi hk
    simp [to_external_item, hfi, hk]

/-- Witness for C5 (amended): instantiated on a fresh session with an opaque
type item; the placeholder, drop and abort behaviours all evaluate as the
theorem states. -/
theorem c5_unstable_placeholders_witness :
    (to_item ⟨[], [], 0⟩ ⟨8, ⟨true, .root⟩, .opaqueTy⟩).1 =
        some ⟨0, 8, .unstable sym_type_alias_impl_trait⟩ ∧
      to_external_item ⟨[], [], 0⟩ ⟨9, .typeItem⟩ = none := by
  have h := c5_unstable_placeholders ⟨[], [], 0⟩ ⟨8, ⟨true, .root⟩, .opaqueTy⟩ rfl rfl
  exact ⟨h.1 rfl, h.2.2.2.2 ⟨9, .typeItem⟩ rfl rfl⟩

/-- A concrete item whose span context is outside the root expansion context
but whose outer expansion is a regular macro expansion, not an AST pass. -/
def c9Item : RustcItem := ⟨5, ⟨false, .macroExpn⟩, .staticItem⟩

/-- Counterexample to claim C9: an item whose span originates outside the
root expansion context but from a regular macro expansion (not a compiler
AST pass) is NOT dropped — `to_item` produces a stable node for it. -/
theorem c9_non_root_macro_item_not_dropped :
    (to_item ⟨[], [], 0⟩ c9Item).1 = some ⟨0, 5, .staticItem⟩ := by decide

/-- Claim C9 as amended: item conversion drops a node for being
compiler-generated exactly when its span context is outside the root
expansion context AND its outer expansion is a compiler AST pass; a node
whose span is in the root context, or whose outer expansion is of any other
kind, is never dropped for that reason (it is dropped only when its kind has
no conversion arm). -/
theorem c9_ast_pass_drop (cx : ConvContext) (it : RustcItem)
    (hmiss : assocFind it.ownerId cx.items = none) :
    ((it.span.ctxtIsRoot = false ∧ it.span.outerExpnKind = .astPass) →
        (to_item cx it).1 = none) ∧
      ((it.span.ctxtIsRoot = true ∨ it.span.outerExpnKind ≠ .astPass) →
        ((to_item cx it).1 = none ↔ itemConvKind it.kind = none)) := by
  constructor
  · rintro ⟨h1, h2⟩
    have hcg : is_compiler_generated it.span = true := by
      simp [is_compiler_generated, h1, h2]
    simp [to_item, hmiss, hcg]
  · intro h
    have hcg : is_compiler_generated it.span = false := by
      rcases h with h | h
      · simp [is_compiler_generated, h]
      · cases he : it.span.outerExpnKind <;>
          simp [is_compiler_generated, he] at h ⊢
    cases hk : itemConvKind it.kind with
    | none => simp [to_item, hmiss, hcg, hk]
    | some k => simp [to_item, hmiss, hcg, hk]

/-- Witness for C9 (amended): a fresh session; a static item from an AST
pass expansion outside the root context is dropped, while the amended
equivalence holds for a root-context static item. -/
theorem c9_ast_pass_drop_witness :
    (to_item ⟨[], [], 0⟩ ⟨5, ⟨false, .astPass⟩, .staticItem⟩).1 = none ∧
      ((to_item ⟨[], [], 0⟩ ⟨4, ⟨true, .root⟩, .staticItem⟩).1 = none ↔
        itemConvKind .staticItem = none) := by
  have ha := c9_ast_pass_drop ⟨[], [], 0⟩ ⟨5, ⟨false, .astPass⟩, .staticItem⟩ rfl
  have hb := c9_ast_pass_drop ⟨[], [], 0⟩ ⟨4, ⟨true, .root⟩, .staticItem⟩ rfl
  exact ⟨ha.1 ⟨rfl, rfl⟩, hb.2 (Or.inl rfl)⟩

/-! ## Expression kinds (`marker_api/src/ast/expr.rs`) -/

/-- The `{id, span-id}` data embedded in every concrete expression node
(`CommonExprData`). -/
structure CommonExprData where
  id : Nat
  span : Nat
deriving DecidableEq, Repr

/-- `Result::is_ok`. -/
def resultIsOk {ε α : Type} : Except ε α → Bool
  | .ok _ => true
  | .error _ => false

/-- The unary operators (`UnaryOpKind`): the snapshot's `expr.rs` references
`Neg` directly and documents `Not` and `Deref` as the other unary operators
in `ExprPrecedence`. -/
inductive UnaryOpKind where
  | neg
  | notOp
  | deref
deriving DecidableEq, Repr

/-- `CtorBlocker`: the private construction capability attached to variants
that only the api crate may build; it carries no data. -/
inductive CtorBlocker where
  | new
deriving DecidableEq, Repr

/-- The concrete expression node types referenced by `ExprKind`'s variants.
Their defining submodules are not part of the snapshot, so each carries only
its `CommonExprData`; `UnaryOpExpr` additionally carries the operator kind
and operand that its `kind()` and `expr()` accessors expose, which the
fallible narrowing inspects. -/
structure IntLitExpr where
  data : CommonExprData
deriving DecidableEq, Repr

structure FloatLitExpr where
  data : CommonExprData
deriving DecidableEq, Repr

structure StrLitExpr where
  data : CommonExprData
deriving DecidableEq, Repr

structure CharLitExpr where
  data : CommonExprData
deriving DecidableEq, Repr

structure BoolLitExpr where
  data : CommonExprData
deriving DecidableEq, Repr

structure BlockExpr where
  data : CommonExprData
deriving DecidableEq, Repr

structure ClosureExpr where
  data : CommonExprData
deriving DecidableEq, Repr

structure RefExpr where
  data : CommonExprData
deriving DecidableEq, Repr

structure BinaryOpExpr where
  data : CommonExprData
deriving DecidableEq, Repr

structure TryExpr where
  data : CommonExprData
deriving DecidableEq, Repr

structure AssignExpr where
  data : CommonExprData
deriving DecidableEq, Repr

structure AsExpr where
  data : CommonExprData
deriving DecidableEq, Repr

structure PathExpr where
  data : CommonExprData
deriving DecidableEq, Repr

structure CallExpr where
  data : CommonExprData
deriving DecidableEq, Repr

structure MethodExpr where
  data : CommonExprData
deriving DecidableEq, Repr

structure ArrayExpr where
  data : CommonExprData
deriving DecidableEq, Repr

structure TupleExpr where
  data : CommonExprData
deriving DecidableEq, Repr

structure CtorExpr where
  data : CommonExprData
deriving DecidableEq, Repr

structure RangeExpr where
  data : CommonExprData
deriving DecidableEq, Repr

structure IndexExpr where
  data : CommonExprData
deriving DecidableEq, Repr

structure FieldExpr where
  data : CommonExprData
deriving DecidableEq, Repr

structure IfExpr where
  data : CommonExprData
deriving DecidableEq, Repr

structure LetExpr where
  data : CommonExprData
deriving DecidableEq, Repr

structure MatchExpr where
  data : CommonExprData
deriving DecidableEq, Repr

structure BreakExpr where
  data : CommonExprData
deriving DecidableEq, Repr

structure ReturnExpr where
  data : CommonExprData
deriving DecidableEq, Repr

structure ContinueExpr where
  data : CommonExprData
deriving DecidableEq, Repr

structure ForExpr where
  data : CommonExprData
deriving DecidableEq, Repr

structure LoopExpr where
  data : CommonExprData
deriving DecidableEq, Repr

structure WhileExpr where
  data : CommonExprData
deriving DecidableEq, Repr

structure AwaitExpr where
  data : CommonExprData
deriving DecidableEq, Repr

structure UnstableExpr where
  data : CommonExprData
deriving DecidableEq, Repr

mutual

/-- `ExprKind` (expr.rs lines 55-89): the open tagged union over the
concrete expression nodes, one variant per node type, in source order. -/
inductive ExprKind where
  | intLit (e : IntLitExpr)
  | floatLit (e : FloatLitExpr)
  | strLit (e : StrLitExpr)
  | charLit (e : CharLitExpr)
  | boolLit (e : BoolLitExpr)
  | block (e : BlockExpr)
  | closure (e : ClosureExpr)
  | unaryOp (e : UnaryOpExpr)
  | ref (e : RefExpr)
  | binaryOp (e : BinaryOpExpr)
  | tryExpr (e : TryExpr)
  | assign (e : AssignExpr)
  | asExpr (e : AsExpr)
  | path (e : PathExpr)
  | call (e : CallExpr)
  | method (e : MethodExpr)
  | array (e : ArrayExpr)
  | tuple (e : TupleExpr)
  | ctor (e : CtorExpr)
  | range (e : RangeExpr)
  | index (e : IndexExpr)
  | field (e : FieldExpr)
  | ifExpr (e : IfExpr)
  | letExpr (e : LetExpr)
  | matchExpr (e : MatchExpr)
  | breakExpr (e : BreakExpr)
  | returnExpr (e : ReturnExpr)
  | continueExpr (e : ContinueExpr)
  | forExpr (e : ForExpr)
  | loopExpr (e : LoopExpr)
  | whileExpr (e : WhileExpr)
  | awaitExpr (e : AwaitExpr)
  | unstable (e : UnstableExpr)

/-- `UnaryOpExpr`: its `kind()` accessor returns the operator and its
`expr()` accessor returns the operand expression. -/
inductive UnaryOpExpr where
  | mk (data : CommonExprData) (opKind : UnaryOpKind) (exprArg : ExprKind)

end

/-- `LitExprKind` (expr.rs lines 104-114): the narrowed literal-expression
kinds; the `UnaryOp` variant (a negative number literal) carries the
`CtorBlocker` that gates its construction to the api crate. -/
inductive LitExprKind where
  | int (e : IntLitExpr)
  | float (e : FloatLitExpr)
  | str (e : StrLitExpr)
  | char (e : CharLitExpr)
  | bool (e : BoolLitExpr)
  | unaryOp (e : UnaryOpExpr) (blocker : CtorBlocker)

/-- `From<LitExprKind> for ExprKind` (expr.rs lines 126-137). -/
def litToExpr : LitExprKind → ExprKind
  | .int e => .intLit e
  | .float e => .floatLit e
  | .str e => .strLit e
  | .char e => .charLit e
  | .bool e => .boolLit e
  | .unaryOp e _ => .unaryOp e

/-- `TryFrom<ExprKind> for LitExprKind` (expr.rs lines 139-160): the five
literal variants narrow directly; a `UnaryOp` narrows only when it negates
an expression that itself narrows to a literal; everything else fails. -/
def exprToLit : ExprKind → Except Unit LitExprKind
  | .intLit e => .ok (.int e)
  | .floatLit e => .ok (.float e)
  | .strLit e => .ok (.str e)
  | .charLit e => .ok (.char e)
  | .boolLit e => .ok (.bool e)
  | .unaryOp (.mk data opKind exprArg) =>
    if opKind = .neg ∧ resultIsOk (exprToLit exprArg) = true then
      .ok (.unaryOp (.mk data opKind exprArg) .new)
    else
      .error ()
  | _ => .error ()

/-! ## Claim C6 -/

/-- A `LitExprKind.unaryOp` value whose wrapped operation is `!` (not a
negation): such a value lies in the narrowed type but outside the invariant
the `CtorBlocker`-gated construction site establishes. -/
def c6Bad : LitExprKind :=
  .unaryOp (.mk ⟨2, 2⟩ .notOp (.intLit ⟨⟨1, 1⟩⟩)) .new

/-- Counterexample to claim C6: for the narrowed-kind value `c6Bad`,
narrowing the wrapped kind `From(c6Bad)` does not succeed — the round trip
fails, because the narrowing re-checks that the unary operation is a
negation of a literal. -/
theorem c6_roundtrip_fails_for_non_neg :
    exprToLit (litToExpr c6Bad) = .error () ∧
      (Except.error () : Except Unit LitExprKind) ≠ .ok c6Bad :=
  ⟨rfl, fun h => Except.noConfusion h⟩

/-- The invariant under which a `LitExprKind` value is constructible: the
five literal variants are unconstrained, and a `unaryOp` variant must wrap a
negation of an expression that itself narrows to a literal — exactly the
condition checked at the only construction site of that variant (the
`TryFrom` implementation; `CtorBlocker` blocks all others). -/
def litValid : LitExprKind → Prop
  | .unaryOp (.mk _ opKind exprArg) _ =>
      opKind = .neg ∧ resultIsOk (exprToLit exprArg) = true
  | _ => True

/-- Claim C6 as amended: for every literal-expression value of the narrowed
kind that satisfies the construction invariant its `CtorBlocker` gate
enforces, wrapping it into the tagged kind and applying the reverse fallible
narrowing succeeds and returns the original value (round-trip law); a
`unaryOp` value wrapping a non-negation, constructible only by evading the
gate, fails the round trip (`c6_roundtrip_fails_for_non_neg`). -/
theorem c6_roundtrip (v : LitExprKind) (h : litValid v) :
    exprToLit (litToExpr v) = .ok v := by
  cases v with
  | int e => rfl
  | float e => rfl
  | str e => rfl
  | char e => rfl
  | bool e => rfl
  | unaryOp e blocker =>
    cases e with
    | mk data opKind exprArg =>
      cases blocker
      simp only [litValid] at h
      simp only [litToExpr, exprToLit, if_pos h]

/-- Witness for C6: a concrete int literal satisfies the invariant and round
trips. -/
theorem c6_roundtrip_witness :
    litValid (.int ⟨⟨1, 1⟩⟩) ∧
      exprToLit (litToExpr (.int ⟨⟨1, 1⟩⟩)) = .ok (.int ⟨⟨1, 1⟩⟩) :=
  ⟨trivial, c6_roundtrip (.int ⟨⟨1, 1⟩⟩) trivial⟩

/-! ## Memoized token stream (`linter_api/src/ast/common/attrs.rs`) -/

/-- `MacroTokenStream`: the immutable string form of the attribute's token
tree and the `OnceCell` holding the memoized result of the structured parse
(`none` = cell not yet initialized; the stored value is the `Result` of the
parse, so a failure is memoized too).  The structured representation is an
external type, kept abstract as `τ`. -/
structure MacroTokenStream (τ : Type) where
  string_repr : PathStr
  proc_macro2_repr : Option (Except Unit τ)
deriving Repr

/-- `as_proc_macro2_repr` (attrs.rs lines 146-150):
`self.proc_macro2_repr.get_or_init(|| TokenStream::from_str(self.as_str_repr()).map_err(|_| ()))`.
The external parser is the parameter `parse`.  Returns the result handed to
the caller, the token stream afterwards, and how many parse attempts this
call performed. -/
def as_proc_macro2_repr {τ : Type} (parse : PathStr → Except Unit τ)
    (ts : MacroTokenStream τ) : Except Unit τ × MacroTokenStream τ × Nat :=
  match ts.proc_macro2_repr with
  | some r => (r, ts, 0)
  | none =>
    let r := parse ts.string_repr
    (r, { ts with proc_macro2_repr := some r }, 1)

/-- `n` successive calls of `as_proc_macro2_repr` on the same attribute:
the list of results handed out, the final state, and the total number of
parse attempts. -/
def repeated_repr_calls {τ : Type} (parse : PathStr → Except Unit τ) :
    Nat → MacroTokenStream τ → List (Except Unit τ) × MacroTokenStream τ × Nat
  | 0, ts => ([], ts, 0)
  | n + 1, ts =>
    let r := as_proc_macro2_repr parse ts
    let rest := repeated_repr_calls parse n r.2.1
    (r.1 :: rest.1, rest.2.1, r.2.2 + rest.2.2)

/-- The value every call observes: the memoized cell content if the cell is
already initialized, otherwise the result of parsing the string form. -/
def memoValue {τ : Type} (parse : PathStr → Except Unit τ) (ts : MacroTokenStream τ) :
    Except Unit τ :=
  match ts.proc_macro2_repr with
  | some r => r
  | none => parse ts.string_repr

/-- One call returns `memoValue`, leaves the cell holding `memoValue`, and
parses exactly once when the cell was empty, not at all otherwise. -/
theorem as_proc_macro2_repr_step {τ : Type} (parse : PathStr → Except Unit τ)
    (ts : MacroTokenStream τ) :
    as_proc_macro2_repr parse ts =
      (memoValue parse ts,
        { ts with proc_macro2_repr := some (memoValue parse ts) },
        match ts.proc_macro2_repr with | some _ => 0 | none => 1) := by
  cases ts with
  | mk s c => cases c <;> simp [as_proc_macro2_repr, memoValue]

/-- From a state whose cell already holds `r`, repeated calls parse zero
times and always hand out `r`. -/
theorem repeated_repr_calls_saturated {τ : Type} (parse : PathStr → Except Unit τ)
    (n : Nat) (ts : MacroTokenStream τ) (r : Except Unit τ)
    (h : ts.proc_macro2_repr = some r) :
    (repeated_repr_calls parse n ts).2.2 = 0 ∧
      ∀ x ∈ (repeated_repr_calls parse n ts).1, x = r := by
  induction n generalizing ts with
  | zero => simp [repeated_repr_calls]
  | succ n ih =>
    have hstep := as_proc_macro2_repr_step parse ts
    have hmv : memoValue parse ts = r := by simp [memoValue, h]
    rw [hmv] at hstep
    have hcell : ({ ts with proc_macro2_repr := some r } :
        MacroTokenStream τ).proc_macro2_repr = some r := rfl
    have hrec := ih { ts with proc_macro2_repr := some r } hcell
    simp only [repeated_repr_calls, hstep, h]
    exact ⟨by simpa using hrec.1, by
      intro x hx
      rcases List.mem_cons.mp hx with hx | hx
      · exact hx
      · exact hrec.2 x hx⟩

/-- Claim C7: for every token stream and any number of accesses, the
structured parse of the string form runs at most once in total, and every
access returns the same memoized result, `memoValue` — including when the
parse fails, since the failure value is memoized like a success. -/
theorem c7_parse_memoized {τ : Type} (parse : PathStr → Except Unit τ) (n : Nat)
    (ts : MacroTokenStream τ) :
    (repeated_repr_calls parse n ts).2.2 ≤ 1 ∧
      ∀ x ∈ (repeated_repr_calls parse n ts).1, x = memoValue parse ts := by
  cases n with
  | zero => simp [repeated_repr_calls]
  | succ n =>
    have hstep := as_proc_macro2_repr_step parse ts
    have hcell : ({ ts with proc_macro2_repr := some (memoValue parse ts) } :
        MacroTokenStream τ).proc_macro2_repr = some (memoValue parse ts) := rfl
    have hrec := repeated_repr_calls_saturated parse n
      { ts with proc_macro2_repr := some (memoValue parse ts) } (memoValue parse ts) hcell
    simp only [repeated_repr_calls, hstep]
    constructor
    · have : (match ts.proc_macro2_repr with | some _ => 0 | none => 1) ≤ 1 := by
        cases ts.proc_macro2_repr <;> simp
      simpa [hrec.1] using this
    · intro x hx
      rcases List.mem_cons.mp hx with hx | hx
      · exact hx
      · exact hrec.2 x hx
